import Mathlib

/-!
Shallow embedding of `homework.py`, a Telegram bot that polls the Practicum
homework-status API in an infinite loop and relays status changes to a chat.

Mapping from the Python source to the Lean definitions below:
* Python values that flow through the loop (JSON bodies, dict entries) are
  modelled by the dynamic value type `PyVal`; Python `dict`s become
  association lists with first-match lookup (Python dict keys are unique, so
  first-match lookup agrees with dict lookup).
* `get_api_answer`, `check_response`, `parse_status`, `check_tokens` keep
  their source names; raising an exception becomes returning `Except.error`
  with a `LoopError` naming the Python exception class and its message.
* The body of the `while True:` loop of `main` becomes the pure step function
  `mainStep`, taking the mutable loop state (`current_timestamp`, `prev_msg`)
  plus the external inputs of one iteration (the transport outcome of
  `requests.get` and the two `time.time()` readings) and returning the new
  state together with the observable effects: the texts whose delivery to the
  chat was attempted, the tracked log lines (those of lines 145/149/153 of the
  source, which route the rendered message), and the `finally: time.sleep`
  duration.  `send_message` swallows `telegram.error.TelegramError`
  internally and never raises, so a delivery failure does not alter the state;
  attempted sends are what `sent` records.
* The startup phase of `main` (token check, bot construction, start message,
  state initialisation) becomes `mainStartup`.  Constructing the bot and the
  delivery channel are external collaborators whose failures are absorbed
  (per the send-message contract), so startup failure is exactly the token
  check failing, caught by the outer `except Exception` which logs at
  critical severity and ends the process.
-/

/-- Dynamic Python value as it occurs in the JSON traffic of the bot. -/
inductive PyVal where
  | vnone : PyVal
  | vint : Int → PyVal
  | vstr : String → PyVal
  | vlist : List PyVal → PyVal
  | vdict : List (String × PyVal) → PyVal

/-- Python dict lookup `d[k]` / `d.get(k)` on an association list. -/
def dictGet {α : Type} (d : List (String × α)) (k : String) : Option α :=
  match d with
  | [] => none
  | (k2, v) :: rest => if k2 = k then some v else dictGet rest k

/-- Python membership test `k in d` for a dict. -/
def dictHas {α : Type} (d : List (String × α)) (k : String) : Bool :=
  (dictGet d k).isSome

/-- Python truthiness of a value (`bool(v)`). -/
def PyVal.truthy : PyVal → Bool
  | .vnone => false
  | .vint n => n != 0
  | .vstr s => !s.isEmpty
  | .vlist l => !l.isEmpty
  | .vdict d => !d.isEmpty

/-- Python `str(v)` as used in f-string interpolation.  The rendering of
composite values (list/dict reprs) is abbreviated; no property below depends
on it. -/
def pyStr : PyVal → String
  | .vnone => "None"
  | .vint n => toString n
  | .vstr s => s
  | .vlist _ => "[...]"
  | .vdict _ => "\x7b...\x7d"

/-- Python `type(v)` as rendered inside error messages. -/
def pyTypeName : PyVal → String
  | .vnone => "<class \x27NoneType\x27>"
  | .vint _ => "<class \x27int\x27>"
  | .vstr _ => "<class \x27str\x27>"
  | .vlist _ => "<class \x27list\x27>"
  | .vdict _ => "<class \x27dict\x27>"

/-- Python substring test `a in b` on strings. -/
def strIn (a b : String) : Bool :=
  decide (a.data <:+: b.data)

/-- Exceptions that can be raised inside one loop iteration.
`wrongResponseCode`, `emptyResponseFromAPI`, `notForSend` and
`telegramError` are the classes imported from the `exceptions` module of
the repository; the rest are Python builtins. -/
inductive LoopError where
  | wrongResponseCode : String → LoopError
  | emptyResponseFromAPI : String → LoopError
  | notForSend : String → LoopError
  | telegramError : String → LoopError
  | typeError : String → LoopError
  | keyError : String → LoopError
  | valueError : String → LoopError
  | attributeError : String → LoopError
deriving DecidableEq

/-- Python rendering of a caught exception into the failure message body.
`str` of a `KeyError` wraps its message in quotes. -/
def errorText : LoopError → String
  | .wrongResponseCode m => m
  | .emptyResponseFromAPI m => m
  | .notForSend m => m
  | .telegramError m => m
  | .typeError m => m
  | .keyError m => "\x27" ++ m ++ "\x27"
  | .valueError m => m
  | .attributeError m => m

/-- Modelled from the spec: the `exceptions` module of the repository (imported by
`homework.py` for `NotForSend`, `EmptyResponseFromAPI`, `TelegramError`,
`WrongResponseCode`) is not among the sources, so the class hierarchy behind
`except (NotForSend, TelegramError)` is taken from the error taxonomy of the spec:
fetch and validation failures are "expected, recoverable conditions
classified as do-not-alert-the-operator" that are logged while the loop
continues silently, whereas the Python builtins fall through to the catch-all
handler that additionally attempts to notify the chat.  `errSilent e` says
whether `e` is caught by the first, silent `except` clause of `main`. -/
def errSilent : LoopError → Bool
  | .wrongResponseCode _ => true
  | .emptyResponseFromAPI _ => true
  | .notForSend _ => true
  | .telegramError _ => true
  | _ => false

/-- `RETRY_PERIOD = 600` (seconds slept in the `finally` of the loop). -/
def RETRY_PERIOD : Nat := 600

/-- `ENDPOINT` constant of the source. -/
def ENDPOINT : String :=
  "https://practicum.yandex.ru/api/user_api/homework_statuses/"

/-- `HEADERS` dict of the source (the Authorization header carrying the OAuth
credential), parameterised by the credential instead of reading a
module-level global. -/
def HEADERS (practicum_token : String) : List (String × String) :=
  [("Authorization", "OAuth " ++ practicum_token)]

/-- `HOMEWORK_VERDICTS` constant of the source. -/
def HOMEWORK_VERDICTS : List (String × String) :=
  [("approved", "Работа проверена: ревьюеру всё понравилось. Ура!"),
   ("reviewing", "Работа взята на проверку ревьюером."),
   ("rejected", "Работа проверена: у ревьюера есть замечания.")]

/-- The membership test `homework_status not in HOMEWORK_VERDICTS` of line
99, combined with the indexing `HOMEWORK_VERDICTS[homework_status]` of line
103.  Python dict membership hashes the candidate key, so an unhashable
value (a list or a dict) raises `TypeError: unhashable type`; hashable
non-string values (`None`, numbers) are hashed fine but are never keys of
the verdict dict, so for them the test simply fails. -/
def statusVerdict : PyVal → Except LoopError (Option String)
  | .vstr s => .ok (dictGet HOMEWORK_VERDICTS s)
  | .vlist _ => .error (.typeError "unhashable type: \x27list\x27")
  | .vdict _ => .error (.typeError "unhashable type: \x27dict\x27")
  | _ => .ok none

/-- `check_response` (source lines 74–89): validate the API body. -/
def check_response (response : PyVal) : Except LoopError (List PyVal) :=
  match response with
  | .vdict d =>
    if !(dictHas d "homeworks") || !(dictHas d "current_date") then
      .error (.emptyResponseFromAPI "Нет ключа homeworks в ответе API")
    else
      match dictGet d "homeworks" with
      | some (.vlist hs) => .ok hs
      | some v =>
        .error (.typeError ("Ожидался список (list) в ключе \"homeworks\", получен "
          ++ pyTypeName v))
      | none =>
        .error (.typeError ("Ожидался список (list) в ключе \"homeworks\", получен "
          ++ pyTypeName .vnone))
  | v =>
    .error (.typeError ("Ожидался ответ API в формате dict, получен " ++ pyTypeName v))

/-- `parse_status` (source lines 92–104): render the notification text for
one homework mapping. -/
def parse_status (homework : List (String × PyVal)) : Except LoopError String :=
  if !(dictHas homework "homework_name") then
    .error (.keyError "Нет ключа homework_name в ответе API")
  else
    let homework_name := (dictGet homework "homework_name").getD .vnone
    let homework_status := (dictGet homework "status").getD .vnone
    match statusVerdict homework_status with
    | .error e => .error e
    | .ok (some verdict) =>
      .ok ("Изменился статус проверки работы \"" ++ pyStr homework_name ++ "\". " ++ verdict)
    | .ok none =>
      .error (.valueError ("Неизвестный статус работы - " ++ pyStr homework_status))

/-- `parse_status` as invoked on the dynamically typed `homeworks[0]`:
the membership test of the key string is a `TypeError` for non-iterable values,
an element test for lists and a substring test for strings (for those two,
the subsequent `.get` would be an `AttributeError`). -/
def parse_status_dyn : PyVal → Except LoopError String
  | .vdict d => parse_status d
  | .vstr s =>
    if strIn "homework_name" s then
      .error (.attributeError "\x27str\x27 object has no attribute \x27get\x27")
    else
      .error (.keyError "Нет ключа homework_name в ответе API")
  | .vlist l =>
    if l.any (fun x => match x with | .vstr s => s = "homework_name" | _ => false) then
      .error (.attributeError "\x27list\x27 object has no attribute \x27get\x27")
    else
      .error (.keyError "Нет ключа homework_name в ответе API")
  | v =>
    .error (.typeError ("argument of type " ++ pyTypeName v ++ " is not iterable"))

/-- The fields of a `requests` response that `get_api_answer` reads. -/
structure HttpResponse where
  status_code : Nat
  reason : String
  text : String
  json : PyVal

/-- Outcome of the `requests.get` call: a response, or a raised
`RequestException` (carrying its rendering). -/
inductive TransportResult where
  | ok : HttpResponse → TransportResult
  | requestException : String → TransportResult

/-- The `params_request` dict built by `get_api_answer`. -/
structure ApiRequest where
  url : String
  headers : List (String × String)
  params : List (String × PyVal)

/-- Request construction of `get_api_answer` (source lines 49–54):
`timestamp = current_timestamp or int(time.time())` replaces a falsy cursor
(such as the initial `0`) by the wall-clock reading. -/
def buildRequest (practicum_token : String) (current_timestamp : PyVal)
    (wallFetch : Int) : ApiRequest :=
  let timestamp : PyVal :=
    if current_timestamp.truthy then current_timestamp else .vint wallFetch
  { url := ENDPOINT
    headers := HEADERS practicum_token
    params := [("from_date", timestamp)] }

/-- Rendering of the request dict inside log and error messages (Python
would print dict reprs; abbreviated faithfully enough for the texts here,
which no property inspects). -/
def requestText (req : ApiRequest) : String :=
  req.url ++ ", \x7b"
    ++ String.intercalate ", "
      (req.headers.map (fun h => "\x27" ++ h.1 ++ "\x27: \x27" ++ h.2 ++ "\x27"))
    ++ "\x7d, \x7b"
    ++ String.intercalate ", "
      (req.params.map (fun p => "\x27" ++ p.1 ++ "\x27: " ++ pyStr p.2))
    ++ "\x7d"

/-- Message of the `WrongResponseCode` raised on a non-200 status (source
lines 61–66), embedding the status code, reason phrase and body text. -/
def wrongCodeText (response : HttpResponse) : String :=
  "Ответ API не возвращает 200. Код ответа: " ++ toString response.status_code
    ++ ". Причина: " ++ response.reason ++ ". Текст: " ++ response.text ++ "."

/-- Message of the `WrongResponseCode` re-raised on a `RequestException`
(source lines 68–71), embedding the request description. -/
def requestFailText (req : ApiRequest) : String :=
  "API не возвращает 200. Запрос: " ++ requestText req ++ "."

/-- `get_api_answer` (source lines 45–71) with the transport outcome passed
in as an oracle.  A non-200 status raises `WrongResponseCode` with the
status code, reason phrase and body text; a `RequestException` is re-raised
as `WrongResponseCode` with the request description.  (`WrongResponseCode`
itself is not a `RequestException`, so the first raise is not re-caught by
the `except RequestException` clause.) -/
def get_api_answer (practicum_token : String) (current_timestamp : PyVal)
    (wallFetch : Int) (transport : TransportResult) : Except LoopError PyVal :=
  let params_request := buildRequest practicum_token current_timestamp wallFetch
  match transport with
  | .ok response =>
    if response.status_code != 200 then
      .error (.wrongResponseCode (wrongCodeText response))
    else
      .ok response.json
  | .requestException _ =>
    .error (.wrongResponseCode (requestFailText params_request))

/-- The two mutable variables of the `main` loop. -/
structure PollState where
  current_timestamp : PyVal
  prev_msg : String

/-- External inputs consumed by one loop iteration: the transport outcome of
the fetch, the `time.time()` reading inside `get_api_answer` (`wallFetch`)
and the one at the `current_date` fallback (`wallNow`). -/
structure IterInput where
  transport : TransportResult
  wallFetch : Int
  wallNow : Int

/-- Observable result of one loop iteration. -/
structure IterOutput where
  state : PollState
  sent : List String
  logged : List String
  sleptSeconds : Nat

/-- Source lines 141–145: send the rendered message when it both differs
from `prev_msg` and is not a substring of it (then remember it); otherwise
only log it. -/
def dedupSend (st : PollState) (message : String) : IterOutput :=
  if message != st.prev_msg && !(strIn message st.prev_msg) then
    { state := { st with prev_msg := message }
      sent := [message], logged := [], sleptSeconds := RETRY_PERIOD }
  else
    { state := st, sent := [], logged := [message], sleptSeconds := RETRY_PERIOD }

/-- Source lines 147–162: the two `except` clauses.  A silent error is only
logged; any other error is logged and, when the failure text (`failText`)
is not a substring of `prev_msg`, its delivery is attempted; either way the
failure text becomes the new `prev_msg`.  `st` is the loop state at the moment the
exception is raised (the cursor assignment of line 131 may already have
happened). -/
def failText (e : LoopError) : String :=
  "Сбой в работе программы: " ++ errorText e

def handleError (st : PollState) (e : LoopError) : IterOutput :=
  if errSilent e then
    { state := st, sent := [], logged := [failText e], sleptSeconds := RETRY_PERIOD }
  else if !(strIn (failText e) st.prev_msg) then
    { state := { st with prev_msg := failText e }
      sent := [failText e], logged := [failText e], sleptSeconds := RETRY_PERIOD }
  else
    { state := { st with prev_msg := failText e }
      sent := [], logged := [failText e], sleptSeconds := RETRY_PERIOD }

/-- Source lines 136–139: the message of an iteration with a validated
homeworks list — the fixed no-new-status text for an empty list, otherwise
the rendering of the first entry. -/
def renderMessage (homeworks : List PyVal) : Except LoopError String :=
  match homeworks with
  | [] => .ok "Нет новых статусов"
  | hw :: _ => parse_status_dyn hw

/-- One iteration of the `while True:` loop of `main` (source lines 128–164).
The order of the source is kept: the fetch, then the cursor assignment
`current_timestamp = response.get(..., int(time.time()))` — an
`AttributeError` when the body is not a dict — then `check_response`, the
message rendering, and the dedup/send step.  Every path ends with the
`finally` sleep. -/
def mainStep (practicum_token : String) (st : PollState) (inp : IterInput) :
    IterOutput :=
  match get_api_answer practicum_token st.current_timestamp inp.wallFetch inp.transport with
  | .error e => handleError st e
  | .ok response =>
    match response with
    | .vdict d =>
      let st1 : PollState :=
        { st with current_timestamp := (dictGet d "current_date").getD (.vint inp.wallNow) }
      match check_response (.vdict d) with
      | .error e => handleError st1 e
      | .ok homeworks =>
        match renderMessage homeworks with
        | .error e => handleError st1 e
        | .ok message => dedupSend st1 message
    | other =>
      handleError st (.attributeError (pyTypeName other ++ " object has no attribute get"))

/-- The three environment variables read at module load. -/
structure Env where
  practicum_token : Option String
  telegram_token : Option String
  telegram_chat_id : Option String

/-- Python truthiness of `os.getenv(...)`: unset (`None`) and the empty
string are both falsy. -/
def envTruthy : Option String → Bool
  | none => false
  | some s => !s.isEmpty

/-- The condition of `all([PRACTICUM_TOKEN, TELEGRAM_TOKEN, TELEGRAM_CHAT_ID])`. -/
def tokensOk (env : Env) : Bool :=
  envTruthy env.practicum_token && envTruthy env.telegram_token
    && envTruthy env.telegram_chat_id

/-- `check_tokens` (source lines 107–114): raises `ValueError` when a token
is missing, otherwise returns `True`. -/
def check_tokens (env : Env) : Except LoopError Bool :=
  if tokensOk env then .ok true
  else .error (.valueError "Отсутствует один из токенов")

/-- Result of the startup phase of `main`: either the critical stop (the
outer `except Exception` logs at critical severity and the process ends),
or the loop is entered with the start-message sends already attempted and
the initial loop state. -/
inductive StartupResult where
  | criticalStop : String → StartupResult
  | running : List String → PollState → StartupResult

/-- Startup phase of `main` (source lines 119–127 and 165–166): the token
check, then `current_timestamp = 0`, the attempted delivery of the start
message, and `prev_msg = ""`. -/
def mainStartup (env : Env) : StartupResult :=
  match check_tokens env with
  | .error e => .criticalStop ("Произошла критическая ошибка: " ++ errorText e)
  | .ok _ =>
    .running ["Бот начал работу"] { current_timestamp := .vint 0, prev_msg := "" }

/-! ### Helper lemmas about the embedding -/

theorem dictHas_of_get {α : Type} {d : List (String × α)} {k : String} {v : α}
    (h : dictGet d k = some v) : dictHas d k = true := by
  simp [dictHas, h]

theorem strIn_of_data {a b : String} (h : a.data <:+: b.data) : strIn a b = true := by
  simp [strIn, h]

theorem strIn_middle (x y z : String) : strIn y (x ++ y ++ z) = true := by
  apply strIn_of_data
  simp only [String.data_append]
  exact List.infix_append _ _ _

theorem strIn_nil_right {m : String} (h : m ≠ "") : strIn m "" = false := by
  simp only [strIn, decide_eq_false_iff_not]
  intro hinf
  exact h (String.ext (List.infix_nil.mp hinf))

theorem handleError_cursor (st : PollState) (e : LoopError) :
    (handleError st e).state.current_timestamp = st.current_timestamp := by
  unfold handleError
  split
  · rfl
  · split <;> rfl

theorem handleError_slept (st : PollState) (e : LoopError) :
    (handleError st e).sleptSeconds = RETRY_PERIOD := by
  unfold handleError
  split
  · rfl
  · split <;> rfl

theorem handleError_silent (st : PollState) (e : LoopError) (h : errSilent e = true) :
    handleError st e =
      { state := st, sent := [], logged := [failText e]
        sleptSeconds := RETRY_PERIOD } := by
  simp [handleError, h]

theorem dedupSend_cursor (st : PollState) (m : String) :
    (dedupSend st m).state.current_timestamp = st.current_timestamp := by
  unfold dedupSend
  split <;> rfl

theorem dedupSend_slept (st : PollState) (m : String) :
    (dedupSend st m).sleptSeconds = RETRY_PERIOD := by
  unfold dedupSend
  split <;> rfl

theorem mainStep_success (tok : String) (st : PollState) (d : List (String × PyVal))
    (r t : String) (wf wn : Int) (hs : List PyVal) (cd : PyVal) (m : String)
    (hhw : dictGet d "homeworks" = some (.vlist hs))
    (hcd : dictGet d "current_date" = some cd)
    (hm : renderMessage hs = .ok m) :
    mainStep tok st ⟨.ok ⟨200, r, t, .vdict d⟩, wf, wn⟩ =
      dedupSend { st with current_timestamp := cd } m := by
  simp [mainStep, get_api_answer, check_response, dictHas, hhw, hcd, hm]

theorem mainStep_requestException (tok : String) (st : PollState) (e : String)
    (wf wn : Int) :
    mainStep tok st ⟨.requestException e, wf, wn⟩ =
      handleError st (.wrongResponseCode
        (requestFailText (buildRequest tok st.current_timestamp wf))) := by
  simp [mainStep, get_api_answer]

theorem mainStep_non200 (tok : String) (st : PollState) (resp : HttpResponse)
    (wf wn : Int) (h : resp.status_code ≠ 200) :
    mainStep tok st ⟨.ok resp, wf, wn⟩ =
      handleError st (.wrongResponseCode (wrongCodeText resp)) := by
  have hb : (resp.status_code != 200) = true := by simp [bne_iff_ne, h]
  simp [mainStep, get_api_answer, hb]

theorem mainStep_dict_cursor (tok : String) (st : PollState)
    (d : List (String × PyVal)) (r t : String) (wf wn : Int) :
    (mainStep tok st ⟨.ok ⟨200, r, t, .vdict d⟩, wf, wn⟩).state.current_timestamp =
      (dictGet d "current_date").getD (.vint wn) := by
  simp only [mainStep, get_api_answer]
  rcases hc : check_response (.vdict d) with e | hws
  · simp [hc, handleError_cursor]
  · rcases hm : renderMessage hws with e | m
    · simp [hc, hm, handleError_cursor]
    · simp [hc, hm, dedupSend_cursor]

theorem mainStep_sleeps (tok : String) (st : PollState) (inp : IterInput) :
    (mainStep tok st inp).sleptSeconds = RETRY_PERIOD := by
  rcases inp with ⟨tr, wf, wn⟩
  rcases tr with resp | e
  · rcases resp with ⟨sc, r, t, body⟩
    by_cases hsc : (sc != 200) = true
    · simp [mainStep, get_api_answer, hsc, handleError_slept]
    · rcases body with _ | n | s | l | d
      · simp [mainStep, get_api_answer, hsc, handleError_slept]
      · simp [mainStep, get_api_answer, hsc, handleError_slept]
      · simp [mainStep, get_api_answer, hsc, handleError_slept]
      · simp [mainStep, get_api_answer, hsc, handleError_slept]
      · simp only [mainStep, get_api_answer, hsc]
        rcases hc : check_response (.vdict d) with e2 | hws
        · simp [hc, handleError_slept]
        · rcases hm : renderMessage hws with e2 | m
          · simp [hc, hm, handleError_slept]
          · simp [hc, hm, dedupSend_slept]
  · simp [mainStep, get_api_answer, handleError_slept]

theorem dedup_cond_iff (m p : String) :
    ((m != p) && !(strIn m p)) = true ↔ (m ≠ p ∧ strIn m p = false) := by
  simp [bne_iff_ne]

theorem dedupSend_pos (st : PollState) (m : String)
    (h1 : m ≠ st.prev_msg) (h2 : strIn m st.prev_msg = false) :
    dedupSend st m =
      { state := { st with prev_msg := m }, sent := [m], logged := []
        sleptSeconds := RETRY_PERIOD } := by
  have hb : ((m != st.prev_msg) && !(strIn m st.prev_msg)) = true :=
    (dedup_cond_iff _ _).mpr ⟨h1, h2⟩
  simp [dedupSend, hb]

theorem dedupSend_neg (st : PollState) (m : String)
    (h : ¬ (m ≠ st.prev_msg ∧ strIn m st.prev_msg = false)) :
    dedupSend st m =
      { state := st, sent := [], logged := [m], sleptSeconds := RETRY_PERIOD } := by
  have hb : ((m != st.prev_msg) && !(strIn m st.prev_msg)) = false := by
    rcases Bool.eq_false_or_eq_true ((m != st.prev_msg) && !(strIn m st.prev_msg)) with ht | hf
    · exact absurd ((dedup_cond_iff _ _).mp ht) h
    · exact hf
  simp [dedupSend, hb]

theorem strIn_suffix (x y : String) : strIn y (x ++ y) = true := by
  apply strIn_of_data
  simp only [String.data_append]
  exact ⟨x.data, [], by simp⟩

theorem strIn_append_right (a b c : String) (h : strIn a b = true) :
    strIn a (b ++ c) = true := by
  apply strIn_of_data
  simp only [String.data_append]
  have h2 : a.data <:+: b.data := by simpa [strIn] using h
  exact h2.trans ⟨[], c.data, by simp⟩

/-! ### Claims -/

/-- C5 (counterexample): the fetch helper does NOT place the cursor value `0`
under `from_date`: `timestamp = current_timestamp or int(time.time())`
replaces the falsy `0` by the wall-clock reading (here `100`). -/
theorem c5_counterexample :
    (buildRequest "T" (PyVal.vint 0) 100).params ≠ [("from_date", PyVal.vint 0)] := by
  simp [buildRequest, PyVal.truthy]

/-- C5 (amended): for every NONZERO integer cursor the request carries exactly
that value under the `from_date` query parameter; for the cursor `0` (the
initial value of the loop) it instead carries the wall-clock reading; and for
every cursor the headers carry the `Authorization` credential exactly once. -/
theorem c5_request_shape_amended :
    (∀ (tok : String) (c : Int) (w : Int), c ≠ 0 →
      buildRequest tok (.vint c) w =
        { url := ENDPOINT, headers := [("Authorization", "OAuth " ++ tok)]
          params := [("from_date", PyVal.vint c)] }) ∧
    (∀ (tok : String) (w : Int),
      (buildRequest tok (.vint 0) w).params = [("from_date", PyVal.vint w)]) ∧
    (∀ (tok : String) (ts : PyVal) (w : Int),
      (buildRequest tok ts w).headers = [("Authorization", "OAuth " ++ tok)] ∧
      ((buildRequest tok ts w).headers.countP (fun h => h.1 == "Authorization")) = 1) := by
  refine ⟨?_, ?_, ?_⟩
  · intro tok c w hc
    have ht : (PyVal.vint c).truthy = true := by simp [PyVal.truthy, bne_iff_ne, hc]
    simp [buildRequest, ht, HEADERS]
  · intro tok w
    simp [buildRequest, PyVal.truthy]
  · intro tok ts w
    constructor
    · simp [buildRequest, HEADERS]
    · simp [buildRequest, HEADERS, List.countP, List.countP.go]

/-- C5 (witness): the amended statement at concrete inputs. -/
theorem c5_request_shape_amended_witness :
    buildRequest "T" (.vint 5) 100 =
      { url := ENDPOINT, headers := [("Authorization", "OAuth T")]
        params := [("from_date", PyVal.vint 5)] } ∧
    (buildRequest "T" (.vint 0) 100).params = [("from_date", PyVal.vint 100)] ∧
    (buildRequest "T" PyVal.vnone 7).headers = [("Authorization", "OAuth T")] := by
  refine ⟨c5_request_shape_amended.1 "T" 5 100 (by decide), c5_request_shape_amended.2.1 "T" 100,
    (c5_request_shape_amended.2.2 "T" PyVal.vnone 7).1⟩

/-- C7: `check_response` raises the empty-response error whenever `homeworks`
or `current_date` is missing (and then never returns a sequence); with both
keys present it raises a `TypeError` when the `homeworks` value is not a
list, and returns the list unchanged otherwise.  The three clauses are read
in the check order of the validator, as in the source. -/
theorem c7_check_response_validation :
    (∀ (d : List (String × PyVal)),
      (!(dictHas d "homeworks") || !(dictHas d "current_date")) = true →
      check_response (.vdict d) =
        .error (.emptyResponseFromAPI "Нет ключа homeworks в ответе API")) ∧
    (∀ (d : List (String × PyVal)) (v : PyVal),
      dictGet d "homeworks" = some v → dictHas d "current_date" = true →
      (∀ l, v ≠ PyVal.vlist l) →
      ∃ m, check_response (.vdict d) = .error (.typeError m)) ∧
    (∀ (d : List (String × PyVal)) (l : List PyVal),
      dictGet d "homeworks" = some (.vlist l) → dictHas d "current_date" = true →
      check_response (.vdict d) = .ok l) := by
  refine ⟨?_, ?_, ?_⟩
  · intro d h
    simp [check_response, h]
  · intro d v hv hcd hnl
    have hh : dictHas d "homeworks" = true := dictHas_of_get hv
    refine ⟨"Ожидался список (list) в ключе \"homeworks\", получен " ++ pyTypeName v, ?_⟩
    rcases v with _ | n | s | l | dd
    · simp [check_response, hh, hcd, hv]
    · simp [check_response, hh, hcd, hv]
    · simp [check_response, hh, hcd, hv]
    · exact absurd rfl (hnl l)
    · simp [check_response, hh, hcd, hv]
  · intro d l hv hcd
    simp [check_response, dictHas_of_get hv, hcd, hv]

/-- C7 (witness): the three clauses at concrete dict inputs. -/
theorem c7_check_response_validation_witness :
    check_response (.vdict [("current_date", PyVal.vint 2)]) =
      .error (.emptyResponseFromAPI "Нет ключа homeworks в ответе API") ∧
    (∃ m, check_response
      (.vdict [("homeworks", PyVal.vint 1), ("current_date", PyVal.vint 2)]) =
      .error (.typeError m)) ∧
    check_response (.vdict [("homeworks", PyVal.vlist []), ("current_date", PyVal.vint 2)]) =
      .ok [] := by
  refine ⟨c7_check_response_validation.1 _ (by decide),
    c7_check_response_validation.2.1 _ (PyVal.vint 1) rfl (by decide)
      (fun l h => PyVal.noConfusion h),
    c7_check_response_validation.2.2 _ [] rfl (by decide)⟩

/-- Classifier used only in statements below: whether a formatter run
raised a `ValueError`. -/
def raisedValueError : Except LoopError String → Bool
  | .error (.valueError _) => true
  | _ => false

/-- C8 (counterexample): a homework mapping whose `status` is a JSON array —
a value outside the three known statuses — does NOT make the formatter raise
a value error: the dict-membership test of line 99 hashes the candidate key,
so the unhashable list raises `TypeError: unhashable type` instead. -/
theorem c8_counterexample :
    parse_status [("homework_name", PyVal.vstr "n"), ("status", PyVal.vlist [])] =
      .error (.typeError "unhashable type: \x27list\x27") ∧
    raisedValueError
      (parse_status [("homework_name", PyVal.vstr "n"), ("status", PyVal.vlist [])]) =
      false := by
  exact ⟨rfl, rfl⟩

/-- C8 (amended): `parse_status` raises `KeyError` for a mapping without
`homework_name`; with the name present, a status that is absent or a
HASHABLE value outside the three known verdict keys (a missing key, an
unknown string, a number, null) raises `ValueError`, while an unhashable
status value (a JSON array or object) raises `TypeError` from the
dict-membership test; and for each known status the formatter returns
exactly `Изменился статус проверки работы "<name>". <fixed phrase>`.  The
clauses are read in the check order of the formatter, as in the source; the
final conjuncts pin the verdict table to exactly the three fixed phrases. -/
theorem c8_parse_status_amended :
    (∀ (hw : List (String × PyVal)), dictHas hw "homework_name" = false →
      parse_status hw = .error (.keyError "Нет ключа homework_name в ответе API")) ∧
    (∀ (hw : List (String × PyVal)), dictHas hw "homework_name" = true →
      statusVerdict ((dictGet hw "status").getD .vnone) = .ok none →
      ∃ m, parse_status hw = .error (.valueError m)) ∧
    (∀ (hw : List (String × PyVal)) (e : LoopError), dictHas hw "homework_name" = true →
      statusVerdict ((dictGet hw "status").getD .vnone) = .error e →
      parse_status hw = .error e) ∧
    (∀ (l : List PyVal),
      statusVerdict (.vlist l) = .error (.typeError "unhashable type: \x27list\x27")) ∧
    (∀ (d : List (String × PyVal)),
      statusVerdict (.vdict d) = .error (.typeError "unhashable type: \x27dict\x27")) ∧
    statusVerdict .vnone = .ok none ∧
    (∀ (n : Int), statusVerdict (.vint n) = .ok none) ∧
    (∀ (hw : List (String × PyVal)) (name k verdict : String),
      dictGet hw "homework_name" = some (.vstr name) →
      dictGet hw "status" = some (.vstr k) →
      dictGet HOMEWORK_VERDICTS k = some verdict →
      parse_status hw =
        .ok ("Изменился статус проверки работы \"" ++ name ++ "\". " ++ verdict)) ∧
    dictGet HOMEWORK_VERDICTS "approved" =
      some "Работа проверена: ревьюеру всё понравилось. Ура!" ∧
    dictGet HOMEWORK_VERDICTS "reviewing" =
      some "Работа взята на проверку ревьюером." ∧
    dictGet HOMEWORK_VERDICTS "rejected" =
      some "Работа проверена: у ревьюера есть замечания." ∧
    (∀ (k v : String), dictGet HOMEWORK_VERDICTS k = some v →
      k = "approved" ∨ k = "reviewing" ∨ k = "rejected") := by
  refine ⟨?_, ?_, ?_, fun l => rfl, fun d => rfl, rfl, fun n => rfl, ?_,
    rfl, rfl, rfl, ?_⟩
  · intro hw h
    simp [parse_status, h]
  · intro hw h hv
    exact ⟨"Неизвестный статус работы - " ++ pyStr ((dictGet hw "status").getD .vnone),
      by simp [parse_status, h, hv]⟩
  · intro hw e h hv
    simp [parse_status, h, hv]
  · intro hw name k verdict hn hk hverd
    simp [parse_status, dictHas_of_get hn, hn, hk, statusVerdict, hverd, pyStr]
  · intro k v h
    simp only [HOMEWORK_VERDICTS, dictGet] at h
    split_ifs at h with h1 h2 h3
    · exact Or.inl h1.symm
    · exact Or.inr (Or.inl h2.symm)
    · exact Or.inr (Or.inr h3.symm)

/-- C8 (witness): the amended clauses at concrete homework mappings — the
missing-name case, the absent-status and numeric-status value errors, the
unhashable-status type error, and one formatted output per known status. -/
theorem c8_parse_status_amended_witness :
    parse_status [("status", PyVal.vstr "approved")] =
      .error (.keyError "Нет ключа homework_name в ответе API") ∧
    (∃ m, parse_status [("homework_name", PyVal.vstr "hw")] =
      .error (.valueError m)) ∧
    (∃ m, parse_status [("homework_name", PyVal.vstr "hw"), ("status", PyVal.vint 7)] =
      .error (.valueError m)) ∧
    parse_status [("homework_name", PyVal.vstr "n"), ("status", PyVal.vdict [])] =
      .error (.typeError "unhashable type: \x27dict\x27") ∧
    parse_status [("homework_name", PyVal.vstr "hw"), ("status", PyVal.vstr "approved")] =
      .ok "Изменился статус проверки работы \"hw\". Работа проверена: ревьюеру всё понравилось. Ура!" ∧
    parse_status [("homework_name", PyVal.vstr "hw"), ("status", PyVal.vstr "reviewing")] =
      .ok "Изменился статус проверки работы \"hw\". Работа взята на проверку ревьюером." ∧
    parse_status [("homework_name", PyVal.vstr "hw"), ("status", PyVal.vstr "rejected")] =
      .ok "Изменился статус проверки работы \"hw\". Работа проверена: у ревьюера есть замечания." ∧
    ("reviewing" = "approved" ∨ "reviewing" = "reviewing" ∨ "reviewing" = "rejected") := by
  refine ⟨c8_parse_status_amended.1 _ (by decide),
    c8_parse_status_amended.2.1 _ (by decide) rfl,
    c8_parse_status_amended.2.1 _ (by decide) rfl,
    c8_parse_status_amended.2.2.1 _ (.typeError "unhashable type: \x27dict\x27")
      (by decide) rfl,
    c8_parse_status_amended.2.2.2.2.2.2.2.1 _ "hw" "approved" _ rfl rfl rfl,
    c8_parse_status_amended.2.2.2.2.2.2.2.1 _ "hw" "reviewing" _ rfl rfl rfl,
    c8_parse_status_amended.2.2.2.2.2.2.2.1 _ "hw" "rejected" _ rfl rfl rfl,
    c8_parse_status_amended.2.2.2.2.2.2.2.2.2.2.2 "reviewing" _ rfl⟩

/-- C6: a non-200 status or a transport failure makes `get_api_answer` raise
the classified `WrongResponseCode` error — for a non-200 status with a
message embedding the status code, reason phrase and body text as substrings
— and the loop iteration that hits either error leaves the cursor unchanged,
attempts no notification (the error is among the silently logged classified
conditions), completes without crashing (the step function is total) and
still sleeps the fixed period, so the next iteration retries with the same
cursor value. -/
theorem c6_fetch_failure_handling :
    (∀ (tok : String) (ts : PyVal) (wf : Int) (resp : HttpResponse),
      resp.status_code ≠ 200 →
      get_api_answer tok ts wf (.ok resp) =
          .error (.wrongResponseCode (wrongCodeText resp)) ∧
        strIn (toString resp.status_code) (wrongCodeText resp) = true ∧
        strIn resp.reason (wrongCodeText resp) = true ∧
        strIn resp.text (wrongCodeText resp) = true) ∧
    (∀ (tok : String) (ts : PyVal) (wf : Int) (e : String),
      get_api_answer tok ts wf (.requestException e) =
        .error (.wrongResponseCode (requestFailText (buildRequest tok ts wf)))) ∧
    (∀ (tok : String) (st : PollState) (resp : HttpResponse) (wf wn : Int),
      resp.status_code ≠ 200 →
      (mainStep tok st ⟨.ok resp, wf, wn⟩).state.current_timestamp =
          st.current_timestamp ∧
        (mainStep tok st ⟨.ok resp, wf, wn⟩).state.prev_msg = st.prev_msg ∧
        (mainStep tok st ⟨.ok resp, wf, wn⟩).sent = [] ∧
        (mainStep tok st ⟨.ok resp, wf, wn⟩).sleptSeconds = RETRY_PERIOD) ∧
    (∀ (tok : String) (st : PollState) (e : String) (wf wn : Int),
      (mainStep tok st ⟨.requestException e, wf, wn⟩).state.current_timestamp =
          st.current_timestamp ∧
        (mainStep tok st ⟨.requestException e, wf, wn⟩).sent = [] ∧
        (mainStep tok st ⟨.requestException e, wf, wn⟩).sleptSeconds = RETRY_PERIOD) := by
  refine ⟨?_, ?_, ?_, ?_⟩
  · intro tok ts wf resp h
    have hb : (resp.status_code != 200) = true := by simp [bne_iff_ne, h]
    refine ⟨by simp [get_api_answer, hb], ?_, ?_, ?_⟩
    · exact strIn_append_right _ _ _ (strIn_append_right _ _ _ (strIn_append_right _ _ _
        (strIn_append_right _ _ _ (strIn_append_right _ _ _ (strIn_suffix _ _)))))
    · exact strIn_append_right _ _ _ (strIn_append_right _ _ _ (strIn_append_right _ _ _
        (strIn_suffix _ _)))
    · exact strIn_append_right _ _ _ (strIn_suffix _ _)
  · intro tok ts wf e
    simp [get_api_answer]
  · intro tok st resp wf wn h
    rw [mainStep_non200 tok st resp wf wn h,
      handleError_silent _ _ (by rfl)]
    exact ⟨rfl, rfl, rfl, rfl⟩
  · intro tok st e wf wn
    rw [mainStep_requestException tok st e wf wn,
      handleError_silent _ _ (by rfl)]
    exact ⟨rfl, rfl, rfl⟩

/-- C6 (witness): an HTTP 503 response and a transport failure at concrete
inputs. -/
theorem c6_fetch_failure_handling_witness :
    get_api_answer "T" (PyVal.vint 5) 0
        (.ok ⟨503, "Service Unavailable", "busy", PyVal.vnone⟩) =
      .error (.wrongResponseCode
        (wrongCodeText ⟨503, "Service Unavailable", "busy", PyVal.vnone⟩)) ∧
    strIn "503" (wrongCodeText ⟨503, "Service Unavailable", "busy", PyVal.vnone⟩) = true ∧
    (mainStep "T" ⟨PyVal.vint 5, ""⟩
        ⟨.ok ⟨503, "Service Unavailable", "busy", PyVal.vnone⟩, 0, 99⟩).state.current_timestamp =
      PyVal.vint 5 ∧
    (mainStep "T" ⟨PyVal.vint 5, ""⟩
        ⟨.requestException "timeout", 0, 99⟩).state.current_timestamp = PyVal.vint 5 ∧
    (mainStep "T" ⟨PyVal.vint 5, ""⟩
        ⟨.requestException "timeout", 0, 99⟩).sleptSeconds = RETRY_PERIOD := by
  have h1 := c6_fetch_failure_handling.1 "T" (PyVal.vint 5) 0
    ⟨503, "Service Unavailable", "busy", PyVal.vnone⟩ (by decide)
  have h3 := c6_fetch_failure_handling.2.2.1 "T" ⟨PyVal.vint 5, ""⟩
    ⟨503, "Service Unavailable", "busy", PyVal.vnone⟩ 0 99 (by decide)
  have h4 := c6_fetch_failure_handling.2.2.2 "T" ⟨PyVal.vint 5, ""⟩ "timeout" 0 99
  exact ⟨h1.1, h1.2.1, h3.1, h4.1, h4.2.2⟩

/-- C9: when any of the three credentials is absent or empty, startup ends in
the critical-severity stop without entering the loop; with all three present
and non-empty the loop is entered; and every loop iteration completes with
the fixed sleep, so no iteration terminates the process — the startup
configuration failure is the only terminating path of the model. -/
theorem c9_startup_token_gate :
    (∀ env : Env, tokensOk env = false →
      mainStartup env =
        .criticalStop "Произошла критическая ошибка: Отсутствует один из токенов") ∧
    (∀ env : Env, tokensOk env = true →
      mainStartup env =
        .running ["Бот начал работу"] { current_timestamp := .vint 0, prev_msg := "" }) ∧
    (∀ (tok : String) (st : PollState) (inp : IterInput),
      (mainStep tok st inp).sleptSeconds = RETRY_PERIOD) := by
  refine ⟨?_, ?_, mainStep_sleeps⟩
  · intro env h
    simp [mainStartup, check_tokens, h, errorText]
  · intro env h
    simp [mainStartup, check_tokens, h]

/-- C9 (witness): a fully missing environment stops critically; a complete
environment enters the loop. -/
theorem c9_startup_token_gate_witness :
    mainStartup { practicum_token := none, telegram_token := none, telegram_chat_id := none } =
      .criticalStop "Произошла критическая ошибка: Отсутствует один из токенов" ∧
    mainStartup
        { practicum_token := some "p", telegram_token := some "t", telegram_chat_id := some "c" } =
      .running ["Бот начал работу"] { current_timestamp := .vint 0, prev_msg := "" } ∧
    (mainStep "T" ⟨PyVal.vint 0, ""⟩ ⟨.requestException "down", 0, 0⟩).sleptSeconds =
      RETRY_PERIOD := by
  exact ⟨c9_startup_token_gate.1 _ (by decide), c9_startup_token_gate.2.1 _ (by decide),
    c9_startup_token_gate.2.2 "T" ⟨PyVal.vint 0, ""⟩ ⟨.requestException "down", 0, 0⟩⟩

/-- C10: on every successful startup the attempted chat sends are exactly
the one fixed start message, while the dedup memory is initialised to the
empty string — which differs from the start message — so the first rendered
message of the loop is compared against the empty string: any non-empty
first message passes the dedup check no matter what the start message was. -/
theorem c10_start_message_outside_dedup :
    (∀ env : Env, tokensOk env = true →
      mainStartup env =
        .running ["Бот начал работу"] { current_timestamp := .vint 0, prev_msg := "" }) ∧
    ("" ≠ "Бот начал работу") ∧
    (∀ (cur : PyVal) (m : String), m ≠ "" →
      (dedupSend { current_timestamp := cur, prev_msg := "" } m).sent = [m]) := by
  refine ⟨?_, by decide, ?_⟩
  · intro env h
    simp [mainStartup, check_tokens, h]
  · intro cur m hm
    rw [dedupSend_pos _ _ hm (strIn_nil_right hm)]

/-- C10 (witness): the start message and the first-iteration dedup at
concrete inputs. -/
theorem c10_start_message_outside_dedup_witness :
    mainStartup
        { practicum_token := some "p", telegram_token := some "t", telegram_chat_id := some "c" } =
      .running ["Бот начал работу"] { current_timestamp := .vint 0, prev_msg := "" } ∧
    (dedupSend { current_timestamp := PyVal.vint 0, prev_msg := "" } "Нет новых статусов").sent =
      ["Нет новых статусов"] := by
  exact ⟨c10_start_message_outside_dedup.1 _ (by decide),
    c10_start_message_outside_dedup.2.2 (PyVal.vint 0) _ (by decide)⟩

/-- C1: two consecutive successful iterations that render the same message —
a message that is new relative to the stored text, as required by the dedup
rule the claim itself states — attempt the send exactly once, on the first
iteration, and the second iteration only logs the message; in general a
successfully rendered text is sent exactly when it differs from the stored
previous text and is not contained in it as a substring. -/
theorem c1_dedup_idempotence :
    (∀ (tok : String) (st : PollState) (d1 d2 : List (String × PyVal))
        (r1 t1 r2 t2 : String) (wf1 wn1 wf2 wn2 : Int) (hs1 hs2 : List PyVal)
        (cd1 cd2 : PyVal) (m : String),
      dictGet d1 "homeworks" = some (.vlist hs1) →
      dictGet d1 "current_date" = some cd1 →
      renderMessage hs1 = .ok m →
      dictGet d2 "homeworks" = some (.vlist hs2) →
      dictGet d2 "current_date" = some cd2 →
      renderMessage hs2 = .ok m →
      m ≠ st.prev_msg → strIn m st.prev_msg = false →
      (mainStep tok st ⟨.ok ⟨200, r1, t1, .vdict d1⟩, wf1, wn1⟩).sent = [m] ∧
      (mainStep tok (mainStep tok st ⟨.ok ⟨200, r1, t1, .vdict d1⟩, wf1, wn1⟩).state
        ⟨.ok ⟨200, r2, t2, .vdict d2⟩, wf2, wn2⟩).sent = [] ∧
      (mainStep tok (mainStep tok st ⟨.ok ⟨200, r1, t1, .vdict d1⟩, wf1, wn1⟩).state
        ⟨.ok ⟨200, r2, t2, .vdict d2⟩, wf2, wn2⟩).logged = [m]) ∧
    (∀ (tok : String) (st : PollState) (d : List (String × PyVal)) (r t : String)
        (wf wn : Int) (hs : List PyVal) (cd : PyVal) (m : String),
      dictGet d "homeworks" = some (.vlist hs) →
      dictGet d "current_date" = some cd →
      renderMessage hs = .ok m →
      ((mainStep tok st ⟨.ok ⟨200, r, t, .vdict d⟩, wf, wn⟩).sent ≠ [] ↔
        (m ≠ st.prev_msg ∧ strIn m st.prev_msg = false))) := by
  constructor
  · intro tok st d1 d2 r1 t1 r2 t2 wf1 wn1 wf2 wn2 hs1 hs2 cd1 cd2 m
      h1 h2 h3 h4 h5 h6 hne hni
    have e1 : mainStep tok st ⟨.ok ⟨200, r1, t1, .vdict d1⟩, wf1, wn1⟩ =
        dedupSend ⟨cd1, st.prev_msg⟩ m :=
      mainStep_success tok st d1 r1 t1 wf1 wn1 hs1 cd1 m h1 h2 h3
    have e2 : dedupSend (⟨cd1, st.prev_msg⟩ : PollState) m =
        { state := ⟨cd1, m⟩, sent := [m], logged := [], sleptSeconds := RETRY_PERIOD } :=
      dedupSend_pos ⟨cd1, st.prev_msg⟩ m hne hni
    have e3 : mainStep tok ⟨cd1, m⟩ ⟨.ok ⟨200, r2, t2, .vdict d2⟩, wf2, wn2⟩ =
        dedupSend ⟨cd2, m⟩ m :=
      mainStep_success tok ⟨cd1, m⟩ d2 r2 t2 wf2 wn2 hs2 cd2 m h4 h5 h6
    have e4 : dedupSend (⟨cd2, m⟩ : PollState) m =
        { state := ⟨cd2, m⟩, sent := [], logged := [m], sleptSeconds := RETRY_PERIOD } :=
      dedupSend_neg ⟨cd2, m⟩ m (fun hcon => hcon.1 rfl)
    rw [e1, e2]
    dsimp only
    rw [e3, e4]
    exact ⟨rfl, rfl, rfl⟩
  · intro tok st d r t wf wn hs cd m h1 h2 h3
    have e1 : mainStep tok st ⟨.ok ⟨200, r, t, .vdict d⟩, wf, wn⟩ =
        dedupSend ⟨cd, st.prev_msg⟩ m :=
      mainStep_success tok st d r t wf wn hs cd m h1 h2 h3
    rw [e1]
    by_cases hc : m ≠ st.prev_msg ∧ strIn m st.prev_msg = false
    · rw [dedupSend_pos ⟨cd, st.prev_msg⟩ m hc.1 hc.2]
      simpa using hc
    · rw [dedupSend_neg ⟨cd, st.prev_msg⟩ m hc]
      simpa using hc

/-- C1 (witness): the same approved-status message rendered on two
consecutive iterations from the fresh state is sent once and then only
logged. -/
theorem c1_dedup_idempotence_witness :
    (mainStep "T" ⟨PyVal.vint 0, ""⟩
      ⟨.ok ⟨200, "OK", "",
        .vdict [("homeworks", .vlist [.vdict [("homework_name", .vstr "hw"),
          ("status", .vstr "approved")]]), ("current_date", .vint 1)]⟩, 0, 0⟩).sent =
      ["Изменился статус проверки работы \"hw\". Работа проверена: ревьюеру всё понравилось. Ура!"] ∧
    (mainStep "T"
      (mainStep "T" ⟨PyVal.vint 0, ""⟩
        ⟨.ok ⟨200, "OK", "",
          .vdict [("homeworks", .vlist [.vdict [("homework_name", .vstr "hw"),
            ("status", .vstr "approved")]]), ("current_date", .vint 1)]⟩, 0, 0⟩).state
      ⟨.ok ⟨200, "OK", "",
        .vdict [("homeworks", .vlist [.vdict [("homework_name", .vstr "hw"),
          ("status", .vstr "approved")]]), ("current_date", .vint 2)]⟩, 0, 0⟩).sent = [] ∧
    (mainStep "T"
      (mainStep "T" ⟨PyVal.vint 0, ""⟩
        ⟨.ok ⟨200, "OK", "",
          .vdict [("homeworks", .vlist [.vdict [("homework_name", .vstr "hw"),
            ("status", .vstr "approved")]]), ("current_date", .vint 1)]⟩, 0, 0⟩).state
      ⟨.ok ⟨200, "OK", "",
        .vdict [("homeworks", .vlist [.vdict [("homework_name", .vstr "hw"),
          ("status", .vstr "approved")]]), ("current_date", .vint 2)]⟩, 0, 0⟩).logged =
      ["Изменился статус проверки работы \"hw\". Работа проверена: ревьюеру всё понравилось. Ура!"] := by
  exact c1_dedup_idempotence.1 "T" ⟨PyVal.vint 0, ""⟩ _ _ "OK" "" "OK" "" 0 0 0 0
    [.vdict [("homework_name", .vstr "hw"), ("status", .vstr "approved")]]
    [.vdict [("homework_name", .vstr "hw"), ("status", .vstr "approved")]]
    (.vint 1) (.vint 2)
    "Изменился статус проверки работы \"hw\". Работа проверена: ревьюеру всё понравилось. Ура!"
    rfl rfl rfl rfl rfl rfl (by decide) (by decide)

/-- C2 (counterexample): with an empty validated homeworks list the loop
does NOT merely log — from the fresh state (previous text `""`, as
initialised at startup) the fixed no-new-status message passes the dedup
check and its delivery to the chat is attempted. -/
theorem c2_counterexample :
    (mainStep "T" ⟨PyVal.vint 0, ""⟩
      ⟨.ok ⟨200, "OK", "", .vdict [("homeworks", .vlist []), ("current_date", .vint 1)]⟩,
        0, 0⟩).sent = ["Нет новых статусов"] ∧
    ["Нет новых статусов"] ≠ ([] : List String) := by
  exact ⟨by decide, by decide⟩

/-- C2 (amended): an iteration whose validated homeworks list is empty
renders the fixed no-new-status string and routes it through the SAME
dedup/send step as any other message: the message is sent when it differs
from the stored previous text and is not contained in it, and otherwise —
in particular on every later consecutive empty iteration — it is only
logged. -/
theorem c2_empty_homeworks_amended :
    (∀ (tok : String) (st : PollState) (d : List (String × PyVal)) (r t : String)
        (wf wn : Int) (cd : PyVal),
      dictGet d "homeworks" = some (.vlist []) →
      dictGet d "current_date" = some cd →
      mainStep tok st ⟨.ok ⟨200, r, t, .vdict d⟩, wf, wn⟩ =
        dedupSend ⟨cd, st.prev_msg⟩ "Нет новых статусов") ∧
    (∀ (st : PollState),
      ("Нет новых статусов" ≠ st.prev_msg ∧ strIn "Нет новых статусов" st.prev_msg = false →
        (dedupSend st "Нет новых статусов").sent = ["Нет новых статусов"]) ∧
      (¬ ("Нет новых статусов" ≠ st.prev_msg ∧ strIn "Нет новых статусов" st.prev_msg = false) →
        (dedupSend st "Нет новых статусов").sent = [] ∧
        (dedupSend st "Нет новых статусов").logged = ["Нет новых статусов"])) := by
  constructor
  · intro tok st d r t wf wn cd h1 h2
    exact mainStep_success tok st d r t wf wn [] cd "Нет новых статусов" h1 h2 rfl
  · intro st
    constructor
    · intro hc
      rw [dedupSend_pos st _ hc.1 hc.2]
    · intro hc
      rw [dedupSend_neg st _ hc]
      exact ⟨rfl, rfl⟩

/-- C2 (witness): the amended statement at concrete inputs — a first empty
iteration sends the fixed message, a consecutive one only logs it. -/
theorem c2_empty_homeworks_amended_witness :
    mainStep "T" ⟨PyVal.vint 0, "Нет новых статусов"⟩
        ⟨.ok ⟨200, "OK", "", .vdict [("homeworks", .vlist []), ("current_date", .vint 2)]⟩,
          0, 0⟩ =
      dedupSend ⟨PyVal.vint 2, "Нет новых статусов"⟩ "Нет новых статусов" ∧
    (dedupSend ⟨PyVal.vint 0, ""⟩ "Нет новых статусов").sent = ["Нет новых статусов"] ∧
    (dedupSend ⟨PyVal.vint 2, "Нет новых статусов"⟩ "Нет новых статусов").sent = [] ∧
    (dedupSend ⟨PyVal.vint 2, "Нет новых статусов"⟩ "Нет новых статусов").logged =
      ["Нет новых статусов"] := by
  have h2 := (c2_empty_homeworks_amended.2 ⟨PyVal.vint 0, ""⟩).1 (by decide)
  have h3 := (c2_empty_homeworks_amended.2 ⟨PyVal.vint 2, "Нет новых статусов"⟩).2
    (by intro hcon; exact hcon.1 rfl)
  exact ⟨c2_empty_homeworks_amended.1 "T" ⟨PyVal.vint 0, "Нет новых статусов"⟩ _ "OK" "" 0 0
    (PyVal.vint 2) rfl rfl, h2, h3.1, h3.2⟩

theorem handleError_logged (st : PollState) (e : LoopError) :
    (handleError st e).logged = [failText e] := by
  unfold handleError
  split
  · rfl
  · split <;> rfl

/-- C3 (counterexample): a mapping response missing both required keys does
NOT leave the cursor at its previous value `5` — the cursor assignment of
line 131 runs before `check_response`, so the cursor advances to the
wall-clock reading `100` even though validation then aborts the iteration. -/
theorem c3_counterexample :
    (mainStep "T" ⟨PyVal.vint 5, ""⟩
      ⟨.ok ⟨200, "OK", "", .vdict []⟩, 0, 100⟩).state.current_timestamp = PyVal.vint 100 ∧
    PyVal.vint 100 ≠ PyVal.vint 5 := by
  exact ⟨rfl, by simp⟩

/-- C3 (amended): a malformed response aborts the iteration as a reportable
error, but the cursor is retained only when the response is NOT a mapping
(the failing attribute access precedes the assignment); for a mapping
missing `homeworks` or `current_date` the cursor has already been advanced
to its `current_date` value (or the wall-clock reading) when validation
aborts the iteration without a send. -/
theorem c3_malformed_response_amended :
    (∀ (tok : String) (st : PollState) (r t : String) (wf wn : Int) (body : PyVal),
      (∀ d, body ≠ PyVal.vdict d) →
      (mainStep tok st ⟨.ok ⟨200, r, t, body⟩, wf, wn⟩).state.current_timestamp =
          st.current_timestamp ∧
        (mainStep tok st ⟨.ok ⟨200, r, t, body⟩, wf, wn⟩).logged =
          [failText (.attributeError (pyTypeName body ++ " object has no attribute get"))]) ∧
    (∀ (tok : String) (st : PollState) (d : List (String × PyVal)) (r t : String)
        (wf wn : Int),
      (!(dictHas d "homeworks") || !(dictHas d "current_date")) = true →
      mainStep tok st ⟨.ok ⟨200, r, t, .vdict d⟩, wf, wn⟩ =
        { state := ⟨(dictGet d "current_date").getD (.vint wn), st.prev_msg⟩
          sent := []
          logged := [failText (.emptyResponseFromAPI "Нет ключа homeworks в ответе API")]
          sleptSeconds := RETRY_PERIOD }) := by
  constructor
  · intro tok st r t wf wn body hb
    rcases body with _ | n | s | l | d
    · exact ⟨by simp [mainStep, get_api_answer, handleError_cursor],
        by simp [mainStep, get_api_answer, handleError_logged]⟩
    · exact ⟨by simp [mainStep, get_api_answer, handleError_cursor],
        by simp [mainStep, get_api_answer, handleError_logged]⟩
    · exact ⟨by simp [mainStep, get_api_answer, handleError_cursor],
        by simp [mainStep, get_api_answer, handleError_logged]⟩
    · exact ⟨by simp [mainStep, get_api_answer, handleError_cursor],
        by simp [mainStep, get_api_answer, handleError_logged]⟩
    · exact absurd rfl (hb d)
  · intro tok st d r t wf wn h
    have hc : check_response (.vdict d) =
        .error (.emptyResponseFromAPI "Нет ключа homeworks в ответе API") := by
      simp [check_response, h]
    simp only [mainStep, get_api_answer]
    simp [hc]
    rw [handleError_silent _ _ (by rfl)]

/-- C3 (witness): the amended statement at concrete inputs — a non-mapping
body keeps the cursor, a mapping without the keys advances it. -/
theorem c3_malformed_response_amended_witness :
    (mainStep "T" ⟨PyVal.vint 5, ""⟩
      ⟨.ok ⟨200, "OK", "", PyVal.vint 7⟩, 0, 100⟩).state.current_timestamp = PyVal.vint 5 ∧
    mainStep "T" ⟨PyVal.vint 5, ""⟩
        ⟨.ok ⟨200, "OK", "", .vdict [("current_date", PyVal.vint 42)]⟩, 0, 100⟩ =
      { state := ⟨PyVal.vint 42, ""⟩
        sent := []
        logged := [failText (.emptyResponseFromAPI "Нет ключа homeworks в ответе API")]
        sleptSeconds := RETRY_PERIOD } := by
  refine ⟨(c3_malformed_response_amended.1 "T" ⟨PyVal.vint 5, ""⟩ "OK" "" 0 100
    (PyVal.vint 7) (fun d h => PyVal.noConfusion h)).1, ?_⟩
  have h2 := c3_malformed_response_amended.2 "T" ⟨PyVal.vint 5, ""⟩
    [("current_date", PyVal.vint 42)] "OK" "" 0 100 (by decide)
  exact h2

/-- C4 (counterexample): the cursor is NOT monotonically non-decreasing — in
a run from the initial state, a response reporting `current_date = 10`
advances the cursor to `10`, and the next response reporting
`current_date = 3` moves it back down to `3`. -/
theorem c4_counterexample :
    (mainStep "T" ⟨PyVal.vint 0, ""⟩
      ⟨.ok ⟨200, "OK", "", .vdict [("homeworks", .vlist []), ("current_date", .vint 10)]⟩,
        0, 0⟩).state.current_timestamp = PyVal.vint 10 ∧
    (mainStep "T"
      (mainStep "T" ⟨PyVal.vint 0, ""⟩
        ⟨.ok ⟨200, "OK", "", .vdict [("homeworks", .vlist []), ("current_date", .vint 10)]⟩,
          0, 0⟩).state
      ⟨.ok ⟨200, "OK", "", .vdict [("homeworks", .vlist []), ("current_date", .vint 3)]⟩,
        0, 0⟩).state.current_timestamp = PyVal.vint 3 ∧
    (3 : Int) < 10 := by
  exact ⟨rfl, rfl, by decide⟩

/-- C4 (amended): every iteration that obtains a mapping response sets the
cursor to exactly the reported `current_date` (or the wall-clock reading
when the key is absent), with no lower-bound guard — so the cursor is
non-decreasing only under the assumption that each reported value is at
least the current cursor, which then indeed keeps it non-decreasing — and
fetch-failure iterations (transport error or non-200) leave the cursor
unchanged. -/
theorem c4_cursor_amended :
    (∀ (tok : String) (st : PollState) (d : List (String × PyVal)) (r t : String)
        (wf wn : Int),
      (mainStep tok st ⟨.ok ⟨200, r, t, .vdict d⟩, wf, wn⟩).state.current_timestamp =
        (dictGet d "current_date").getD (.vint wn)) ∧
    (∀ (tok : String) (st : PollState) (d : List (String × PyVal)) (r t : String)
        (wf wn : Int) (c v : Int),
      st.current_timestamp = PyVal.vint c →
      dictGet d "current_date" = some (.vint v) →
      c ≤ v →
      (mainStep tok st ⟨.ok ⟨200, r, t, .vdict d⟩, wf, wn⟩).state.current_timestamp =
          PyVal.vint v ∧ c ≤ v) ∧
    (∀ (tok : String) (st : PollState) (e : String) (wf wn : Int),
      (mainStep tok st ⟨.requestException e, wf, wn⟩).state.current_timestamp =
        st.current_timestamp) ∧
    (∀ (tok : String) (st : PollState) (resp : HttpResponse) (wf wn : Int),
      resp.status_code ≠ 200 →
      (mainStep tok st ⟨.ok resp, wf, wn⟩).state.current_timestamp =
        st.current_timestamp) := by
  refine ⟨mainStep_dict_cursor, ?_, ?_, ?_⟩
  · intro tok st d r t wf wn c v hst hcd hle
    refine ⟨?_, hle⟩
    rw [mainStep_dict_cursor, hcd]
    rfl
  · intro tok st e wf wn
    rw [mainStep_requestException]
    exact handleError_cursor _ _
  · intro tok st resp wf wn h
    rw [mainStep_non200 tok st resp wf wn h]
    exact handleError_cursor _ _

/-- C4 (witness): the amended statement at concrete inputs — a reported
`current_date` of `5` from cursor `1` advances monotonically; a transport
failure keeps the cursor. -/
theorem c4_cursor_amended_witness :
    (mainStep "T" ⟨PyVal.vint 1, ""⟩
      ⟨.ok ⟨200, "OK", "", .vdict [("homeworks", .vlist []), ("current_date", .vint 5)]⟩,
        0, 0⟩).state.current_timestamp = PyVal.vint 5 ∧ (1 : Int) ≤ 5 ∧
    (mainStep "T" ⟨PyVal.vint 1, ""⟩
      ⟨.requestException "down", 0, 0⟩).state.current_timestamp = PyVal.vint 1 := by
  have h := c4_cursor_amended.2.1 "T" ⟨PyVal.vint 1, ""⟩
    [("homeworks", .vlist []), ("current_date", .vint 5)] "OK" "" 0 0 1 5 rfl rfl (by decide)
  exact ⟨h.1, h.2, c4_cursor_amended.2.2.1 "T" ⟨PyVal.vint 1, ""⟩ "down" 0 0⟩
